import Mathlib

/-! Shallow embedding of the Rococcoon/web_components widgets and proofs
about their event handling.

Each definition translates a function of the JavaScript source:

* src/counterComponent/counterComponent.js : counter-component and children
* src/iconThemeAware/iconThemeAware.js : icon-theme-aware, toggle-theme,
  hamburger-menu, hamburger-nav and the todo widgets

DOM state that a method reads or writes (attributes, child text content,
appended elements) is carried explicitly in small state structures; side
effects of the icon loader (network fetch, cache access, element insertion)
are reified as an effect list.  Platform inputs (Date.now, the network, the
JSON parser outcome) are explicit parameters.
-/

namespace WC

/-! ## Counter component (src/counterComponent/counterComponent.js) -/

/-- Event kinds the counter root subscribes to in hydrate: the increment
and decrement custom events emitted by its two button children. -/
inductive CounterEvent
  | increment
  | decrement
  deriving DecidableEq

/-- State of counter-component: the count field of the root, and the count
attribute last written to the count-total child. -/
structure CounterRoot where
  count : Int
  countAttr : String
  deriving DecidableEq

/-- The constructor sets count to 0 and render writes that count into the
count-total markup. -/
def CounterRoot.initial : CounterRoot :=
  { count := 0, countAttr := toString (0 : Int) }

/-- CounterRoot.update: setAttribute of the count onto the count-total
child (a number coerces to its decimal string). -/
def CounterRoot.update (s : CounterRoot) : CounterRoot :=
  { s with countAttr := toString s.count }

/-- CounterRoot.handleEvent: switch on the event type, mutate count, then
call update. -/
def CounterRoot.handleEvent (e : CounterEvent) (s : CounterRoot) : CounterRoot :=
  let s2 :=
    match e with
    | CounterEvent.increment => { s with count := s.count + 1 }
    | CounterEvent.decrement => { s with count := s.count - 1 }
  s2.update

/-- Delivery of a finite event sequence to CounterRoot.handleEvent, in
dispatch order. -/
def counterRun (evs : List CounterEvent) (s : CounterRoot) : CounterRoot :=
  evs.foldl (fun st e => CounterRoot.handleEvent e st) s

/-- Number of occurrences of one event kind in a sequence. -/
def countEvents (e : CounterEvent) : List CounterEvent → Nat
  | [] => 0
  | x :: rest => (if x = e then 1 else 0) + countEvents e rest

/-! ## Todo widgets (todo-component, todo-input, todo-list, todo-count) -/

/-- Code points JavaScript String.prototype.trim removes: WhiteSpace
(TAB, VT, FF, SP, NBSP, ZWNBSP and the Unicode space separators) and
LineTerminator (LF, CR, LS, PS). -/
def jsWhitespaceCodes : List Nat :=
  [0x9, 0xA, 0xB, 0xC, 0xD, 0x20, 0xA0, 0x1680,
   0x2000, 0x2001, 0x2002, 0x2003, 0x2004, 0x2005, 0x2006, 0x2007,
   0x2008, 0x2009, 0x200A, 0x2028, 0x2029, 0x202F, 0x205F, 0x3000, 0xFEFF]

/-- Whether a character is whitespace for JavaScript trim. -/
def isJsWhitespace (c : Char) : Bool :=
  jsWhitespaceCodes.contains c.toNat

/-- JavaScript String.prototype.trim: drop leading and trailing
whitespace characters. -/
def jsTrim (s : String) : String :=
  String.mk (((s.data.dropWhile isJsWhitespace).reverse.dropWhile isJsWhitespace).reverse)

/-- Payload of a todo-input-submit custom event: detail.text and
detail.id.  The id the source computes is Date.now().toString(); it is
carried here as the underlying clock reading (a natural number whose
decimal string is the DOM attribute value). -/
structure SubmitPayload where
  text : String
  id : Nat
  deriving DecidableEq

/-- The submit listener of todo-input (addEventListeners): read the form
value, trim it, build the id from Date.now() (the parameter now), and
dispatch a todo-input-submit event unless the trimmed value is falsy.
formData.get returns null when the field is absent, modeled by the raw
value being none. -/
def todoInputSubmit (raw : Option String) (now : Nat) : Option SubmitPayload :=
  match raw with
  | none => none
  | some r =>
    let value := jsTrim r
    if value = "" then none
    else some { text := value, id := now }

/-- One rendered todo-item element: its id attribute (decimal string of
the stored Nat) and its text attribute. -/
structure Entry where
  id : Nat
  text : String
  deriving DecidableEq

/-- State of the todo composite: the todo-item children of todo-list in
document order, and the displayed todo-count number. -/
structure TodoState where
  entries : List Entry
  count : Int
  deriving DecidableEq

/-- Initial state: an empty list and a rendered count of 0. -/
def todoInit : TodoState :=
  { entries := [], count := 0 }

/-- todo-component.handleEvent, todo-input-submit case: todo-list
createListItem appends a todo-item carrying the text and id, and
todo-count incrementCount adds one to the displayed number.  (The
internal todoItems bookkeeping array and the re-render of the input are
not part of the rendered list or the count.) -/
def TodoState.handleSubmit (p : SubmitPayload) (s : TodoState) : TodoState :=
  { entries := s.entries ++ [{ id := p.id, text := p.text }], count := s.count + 1 }

/-- A full submit interaction: the todo-input listener runs on the raw
form value, and, when it dispatches, todo-component handles the event. -/
def todoSubmit (raw : Option String) (now : Nat) (s : TodoState) : TodoState :=
  match todoInputSubmit raw now with
  | none => s
  | some p => s.handleSubmit p

/-- A sequence of submit interactions, each with its raw form value and
its Date.now() reading. -/
def runTodoSubmits (subs : List (Option String × Nat)) (s : TodoState) : TodoState :=
  subs.foldl (fun st x => todoSubmit x.1 x.2 st) s

/-- todo-list.deleteListItem: querySelector finds the first todo-item
whose id attribute matches and removes it; when none matches, nothing
happens. -/
def deleteListItem (id : Nat) : List Entry → List Entry
  | [] => []
  | e :: rest => if e.id = id then rest else e :: deleteListItem id rest

/-- todo-component.handleEvent, todo-item-delete case: todo-list
deleteListItem runs, and todo-count decrementCount subtracts one from
the displayed number unconditionally. -/
def TodoState.handleDelete (id : Nat) (s : TodoState) : TodoState :=
  { entries := deleteListItem id s.entries, count := s.count - 1 }

/-- Whether a list of identifiers is strictly increasing. -/
def strictIncr : List Nat → Bool
  | a :: b :: rest => decide (a < b) && strictIncr (b :: rest)
  | _ => true

/-! ## Theme toggle (toggle-theme, icon-sun, icon-moon) -/

/-- State of toggle-theme: the document data-theme attribute (null when
absent) and the data-active attributes of the icon-sun and icon-moon
children. -/
structure ToggleState where
  docTheme : Option String
  sunActive : String
  moonActive : String
  deriving DecidableEq

/-- toggle-theme.setIconVisibility: read the document data-theme
attribute with a fallback to light when it is null or empty, and decide
the data-active string for an icon. -/
def setIconVisibility (icon : String) (docTheme : Option String) : String :=
  let dataTheme :=
    match docTheme with
    | some t => if t = "" then "light" else t
    | none => "light"
  if icon = "sun" then (if dataTheme = "dark" then "true" else "false")
  else if icon = "moon" then (if dataTheme = "light" then "true" else "false")
  else "false"

/-- toggle-theme.render: the icon-sun and icon-moon children are written
with data-active values from setIconVisibility; the document data-theme
attribute is untouched. -/
def toggleRender (docTheme : Option String) : ToggleState :=
  { docTheme := docTheme
    sunActive := setIconVisibility ("sun") docTheme
    moonActive := setIconVisibility ("moon") docTheme }

/-- The two custom events toggle-theme handles; icon-sun dispatches
clicked-sun with detail.id sun, icon-moon dispatches clicked-moon with
detail.id moon, and handleEvent forwards both to handleIconClick. -/
inductive ToggleEvent
  | clickedSun
  | clickedMoon
  deriving DecidableEq

/-- toggle-theme.handleIconClick: on detail.id moon, deactivate the moon
icon, activate the sun icon and set the document theme to dark; on
detail.id sun, the other way around. -/
def handleIconClick (e : ToggleEvent) (_s : ToggleState) : ToggleState :=
  match e with
  | ToggleEvent.clickedMoon =>
    { docTheme := some ("dark"), sunActive := "true", moonActive := "false" }
  | ToggleEvent.clickedSun =>
    { docTheme := some ("light"), sunActive := "false", moonActive := "true" }

/-- Delivery of a sequence of handled icon-click events. -/
def runToggle (evs : List ToggleEvent) (s : ToggleState) : ToggleState :=
  evs.foldl (fun st e => handleIconClick e st) s

/-- The claimed invariant: exactly one of the two icons is active, and it
is the one opposite to the current document theme. -/
def toggleInvariant (s : ToggleState) : Prop :=
  (s.docTheme = some ("dark") ∧ s.sunActive = "true" ∧ s.moonActive = "false") ∨
  (s.docTheme = some ("light") ∧ s.sunActive = "false" ∧ s.moonActive = "true")

/-! ## Theme-aware icon loader (icon-theme-aware) -/

/-- An opaque binary payload, as returned by response.blob(). -/
structure Blob where
  bytes : String
  deriving DecidableEq

/-- Outcome of one network request for an icon source: a successful ok
response with a body, a response with ok false, or a rejected fetch. -/
inductive FetchOutcome
  | ok (b : Blob)
  | httpError
  | netError
  deriving DecidableEq

/-- An img element inserted into the icon container. -/
structure IconImg where
  width : Nat
  height : Nat
  alt : String
  src : Blob
  deriving DecidableEq

/-- Observable side effects of the icon loader. -/
inductive IconEffect
  | fetchReq (src : String)
  | cachePut (key : String)
  | cacheMatch (key : String)
  | cacheOpen (name : String)
  | clearContainer
  | appendImg (img : IconImg)
  deriving DecidableEq

/-- The fields of an icon-theme-aware instance that insertIcon and the
attribute observer read: the current theme, the two resolved icon
variants (null when unavailable) and the icon dimensions. -/
structure IconState where
  currentTheme : String
  iconLight : Option Blob
  iconDark : Option Blob
  iconHeight : Nat
  iconWidth : Nat
  deriving DecidableEq

/-- icon-theme-aware.fetchIcon: warn and return null when the source or
the cache is missing; otherwise fetch once, throw (caught locally) on a
response with ok false, store a clone in the cache on success, and return
the blob; any caught error is logged and becomes a null result. -/
def fetchIcon (iconSrc : Option String) (cacheOk : Bool)
    (net : String → FetchOutcome) : Option Blob × List IconEffect :=
  match iconSrc, cacheOk with
  | none, _ => (none, [])
  | some _, false => (none, [])
  | some src, true =>
    match net src with
    | FetchOutcome.ok b => (some b, [IconEffect.fetchReq src, IconEffect.cachePut src])
    | FetchOutcome.httpError => (none, [IconEffect.fetchReq src])
    | FetchOutcome.netError => (none, [IconEffect.fetchReq src])

/-- The img elements icon-theme-aware.insertIcon leaves in the icon
container: the container is cleared, then a light img is appended only
when the theme is light and iconLight is a Blob (sized by the height and
width parameters), and a dark img only when the theme is dark and
iconDark is a Blob (sized by the iconWidth and iconHeight fields). -/
def insertIconImgs (height width : Nat) (theme : String) (st : IconState) : List IconImg :=
  (if theme = "light" then
    match st.iconLight with
    | some b => [{ width := width, height := height, alt := "Light Icon", src := b }]
    | none => []
  else []) ++
  (if theme = "dark" then
    match st.iconDark with
    | some b => [{ width := st.iconWidth, height := st.iconHeight, alt := "Dark Icon", src := b }]
    | none => []
  else [])

/-- icon-theme-aware.insertIcon as an effect trace: clear the container,
then append the conditional imgs.  (The shadowRoot and the container
exist once render has run, so the early returns do not fire.) -/
def insertIcon (height width : Nat) (theme : String) (st : IconState) : List IconEffect :=
  IconEffect.clearContainer :: (insertIconImgs height width theme st).map IconEffect.appendImg

/-- One mutation record handled by the icon-theme-aware MutationObserver
callback (observeAttributes): read the document data-theme attribute,
store it in currentTheme when non-null, and when it is light or dark run
insertIcon with the stored dimensions and the current theme. -/
def observerStep (theme : Option String) (st : IconState) : IconState × List IconEffect :=
  match theme with
  | none => (st, [])
  | some t =>
    let st2 := { st with currentTheme := t }
    if t = "light" then
      (st2, insertIcon st2.iconHeight st2.iconWidth st2.currentTheme st2)
    else if t = "dark" then
      (st2, insertIcon st2.iconHeight st2.iconWidth st2.currentTheme st2)
    else (st2, [])

/-- A sequence of data-theme mutations delivered to the observer callback
after hydrate has finished, with the accumulated effect trace. -/
def observerRun : List (Option String) → IconState → IconState × List IconEffect
  | [], st => (st, [])
  | t :: rest, st =>
    let p := observerStep t st
    let q := observerRun rest p.1
    (q.1, p.2 ++ q.2)

/-- Whether an effect touches the network or the asset cache. -/
def isNetworkOrCacheEffect : IconEffect → Bool
  | IconEffect.fetchReq _ => true
  | IconEffect.cachePut _ => true
  | IconEffect.cacheMatch _ => true
  | IconEffect.cacheOpen _ => true
  | _ => false

/-! ## Hamburger menu (hamburger-menu, hamburger-icon, hamburger-nav) -/

/-- One child entry of a data-links navigation entry. -/
structure SubLink where
  name : String
  url : String
  deriving DecidableEq

/-- One data-links navigation entry: name, url and optional children
(Array.isArray is true exactly when the field is an array). -/
structure Link where
  name : String
  url : Option String
  children : Option (List SubLink)
  deriving DecidableEq

/-- A rendered navigation list item. -/
inductive NavItem
  | parent (name : String) (children : List SubLink)
  | leaf (name : String) (url : Option String)
  deriving DecidableEq

/-- HamburgerNav.createLinkItem: an entry with a non-empty children array
becomes a parent item holding its sub-links; anything else becomes a leaf
anchor that carries the htmx swap attributes when a url is present. -/
def createLinkItem (l : Link) : NavItem :=
  match l.children with
  | some (c :: cs) => NavItem.parent l.name (c :: cs)
  | _ => NavItem.leaf l.name l.url

/-- Outcome of JSON.parse on the raw data-links attribute value: a
well-formed array of entries, or a thrown SyntaxError with its message. -/
inductive ParseOutcome
  | ok (links : List Link)
  | err (msg : String)
  deriving DecidableEq

/-- HamburgerNav.getDataLinks: JSON.parse the attribute inside try/catch;
on a parse error, log it and return with no value (undefined, modeled as
none); otherwise return the parsed entries. -/
def getDataLinks (outcome : ParseOutcome) : Option (List Link) :=
  match outcome with
  | ParseOutcome.ok links => some links
  | ParseOutcome.err _ => none

/-- Result of HamburgerNav.render: either the list of rendered items, or
an uncaught TypeError. -/
inductive NavRenderResult
  | rendered (items : List NavItem)
  | threwTypeError
  deriving DecidableEq

/-- HamburgerNav.render: store the getDataLinks result in dataLinks and
call dataLinks.forEach(createLinkItem appended to the ul); when dataLinks
is undefined the forEach call throws an uncaught TypeError before any
markup is produced. -/
def hamburgerNavRender (outcome : ParseOutcome) : NavRenderResult :=
  match getDataLinks outcome with
  | none => NavRenderResult.threwTypeError
  | some links => NavRenderResult.rendered (links.map createLinkItem)

/-- State of hamburger-menu: the data-active attributes of the
hamburger-icon child and the hamburger-nav child. -/
structure MenuState where
  iconActive : String
  navActive : String
  deriving DecidableEq

/-- JavaScript String(b) for a boolean. -/
def jsBoolString (b : Bool) : String :=
  if b then "true" else "false"

/-- HamburgerMenu.setMenuState: both attributes start as false. -/
def menuInit : MenuState :=
  { iconActive := "false", navActive := "false" }

/-- HamburgerMenu.toggleAttribute: read whether the icon attribute is the
string true, and write the negated boolean string to both the icon and
the nav. -/
def toggleAttribute (s : MenuState) : MenuState :=
  let current := s.iconActive == "true"
  { iconActive := jsBoolString (!current), navActive := jsBoolString (!current) }

/-- Click events HamburgerMenu.attachEventListener wires: a click on the
hamburger icon, or a click on any generated navigation link (every
element with id hm-nav-link); both listeners call toggleAttribute. -/
inductive MenuEvent
  | iconClick
  | navLinkClick
  deriving DecidableEq

/-- One handled click. -/
def menuStep (e : MenuEvent) (s : MenuState) : MenuState :=
  match e with
  | MenuEvent.iconClick => toggleAttribute s
  | MenuEvent.navLinkClick => toggleAttribute s

/-! ## Counter lemmas and the claim about the displayed total -/

/-- One handleEvent call adds one to the count on increment and subtracts
one on decrement, and always rewrites the attribute to the new count. -/
theorem counterRun_cons (e : CounterEvent) (rest : List CounterEvent) (s : CounterRoot) :
    counterRun (e :: rest) s = counterRun rest (CounterRoot.handleEvent e s) := rfl

/-- The count after a run is the initial count plus the net number of
increments. -/
theorem counterRun_count (evs : List CounterEvent) (s : CounterRoot) :
    (counterRun evs s).count
      = s.count + (countEvents CounterEvent.increment evs : Int)
        - (countEvents CounterEvent.decrement evs : Int) := by
  induction evs generalizing s with
  | nil => simp [counterRun, countEvents]
  | cons e rest ih =>
    rw [counterRun_cons, ih]
    cases e <;>
      simp [CounterRoot.handleEvent, CounterRoot.update, countEvents] <;>
      omega

/-- A run keeps the count attribute synchronized with the count field. -/
theorem counterRun_attr (evs : List CounterEvent) (s : CounterRoot)
    (h : s.countAttr = toString s.count) :
    (counterRun evs s).countAttr = toString (counterRun evs s).count := by
  induction evs generalizing s with
  | nil => simpa [counterRun] using h
  | cons e rest ih =>
    rw [counterRun_cons]
    apply ih
    cases e <;> rfl

/-- C1: for every finite sequence of increment and decrement events
delivered to the counter root, the count attribute written to the
count-total child equals the number of increment events minus the number
of decrement events, starting from 0 at construction, negative totals
included. -/
theorem counter_displayed_net_sum (evs : List CounterEvent) :
    (counterRun evs CounterRoot.initial).countAttr
      = toString ((countEvents CounterEvent.increment evs : Int)
          - (countEvents CounterEvent.decrement evs : Int)) := by
  rw [counterRun_attr evs CounterRoot.initial rfl, counterRun_count]
  congr 1
  simp [CounterRoot.initial]

/-! ## Todo deletion lemmas and claims -/

/-- deleteListItem leaves the list unchanged when no entry matches. -/
theorem deleteListItem_not_mem (id : Nat) (l : List Entry)
    (h : ∀ e ∈ l, e.id ≠ id) : deleteListItem id l = l := by
  induction l with
  | nil => rfl
  | cons e rest ih =>
    have he : e.id ≠ id := h e (List.mem_cons_self e rest)
    simp only [deleteListItem, if_neg he]
    rw [ih (fun x hx => h x (List.mem_cons_of_mem e hx))]

/-- deleteListItem removes exactly the first matching entry. -/
theorem deleteListItem_first (id : Nat) (p : List Entry) (t : String) (q : List Entry)
    (hp : ∀ e ∈ p, e.id ≠ id) :
    deleteListItem id (p ++ { id := id, text := t } :: q) = p ++ q := by
  induction p with
  | nil => simp [deleteListItem]
  | cons a rest ih =>
    have ha : a.id ≠ id := hp a (List.mem_cons_self a rest)
    simp only [List.cons_append, deleteListItem, if_neg ha, List.append_eq]
    rw [ih (fun x hx => hp x (List.mem_cons_of_mem a hx))]

/-- C3 counterexample: delivering a todo-item-delete event whose id
matches no entry is not a no-op: the rendered list is unchanged but the
displayed count still drops from 0 to -1. -/
theorem todo_delete_missing_id_changes_count :
    (TodoState.handleDelete 7 todoInit).entries = todoInit.entries ∧
    (TodoState.handleDelete 7 todoInit).count = -1 ∧
    ¬((TodoState.handleDelete 7 todoInit).count = todoInit.count) := by
  decide

/-- C3 amended: a todo-item-delete event always decrements the displayed
count by one; when an entry with the id exists, exactly the first such
entry is removed from the rendered list, and when none exists the list is
unchanged (but the count still drops). -/
theorem todo_delete_removes_first_and_always_decrements
    (s : TodoState) (id : Nat) :
    (TodoState.handleDelete id s).count = s.count - 1 ∧
    ((∀ e ∈ s.entries, e.id ≠ id) → (TodoState.handleDelete id s).entries = s.entries) ∧
    (∀ (p : List Entry) (t : String) (q : List Entry),
      s.entries = p ++ { id := id, text := t } :: q →
      (∀ e ∈ p, e.id ≠ id) →
      (TodoState.handleDelete id s).entries = p ++ q) := by
  refine ⟨rfl, ?_, ?_⟩
  · intro h
    simp [TodoState.handleDelete, deleteListItem_not_mem id s.entries h]
  · intro p t q hEq hp
    simp [TodoState.handleDelete, hEq, deleteListItem_first id p t q hp]

/-- C3 witness: deleting id 2 from a two-entry list removes exactly the
entry with id 2 and lowers the count from 2 to 1. -/
theorem todo_delete_witness :
    (TodoState.handleDelete 2
      { entries := [{ id := 1, text := "a" }, { id := 2, text := "b" }], count := 2 }).count
      = 2 - 1 ∧
    (TodoState.handleDelete 2
      { entries := [{ id := 1, text := "a" }, { id := 2, text := "b" }], count := 2 }).entries
      = [{ id := 1, text := "a" }] ++ [] := by
  have h := todo_delete_removes_first_and_always_decrements
    { entries := [{ id := 1, text := "a" }, { id := 2, text := "b" }], count := 2 } 2
  exact ⟨h.1, h.2.2 [{ id := 1, text := "a" }] ("b") [] (by decide) (by decide)⟩

/-! ## Hamburger navigation and menu claims -/

/-- C4: on a malformed data-links attribute the JSON parse error is
caught and logged inside getDataLinks (which yields no entries), but
render then calls forEach on the undefined result, so the subtree raises
an uncaught TypeError instead of being skipped quietly. -/
theorem hamburger_nav_malformed_json_throws :
    getDataLinks (ParseOutcome.err ("Unexpected end of JSON input")) = none ∧
    hamburgerNavRender (ParseOutcome.err ("Unexpected end of JSON input"))
      = NavRenderResult.threwTypeError := by
  exact ⟨rfl, rfl⟩

/-- C8 counterexample: a click on a generated navigation link while the
menu is closed does not clear the active state; it sets both data-active
attributes to true. -/
theorem nav_link_click_sets_active_when_closed :
    (menuStep MenuEvent.navLinkClick menuInit).iconActive = "true" ∧
    (menuStep MenuEvent.navLinkClick menuInit).navActive = "true" ∧
    ¬((menuStep MenuEvent.navLinkClick menuInit).navActive = "false") := by
  decide

/-- C8 amended: every handled click, on the hamburger icon or on a
generated navigation link, toggles the data-active attributes of the icon
and the navigation panel together: both receive the negation of the
icon's current value, so a click while the menu is open clears both (and
a click while it is closed sets both). -/
theorem hamburger_click_toggles_both_together (s : MenuState) (e : MenuEvent) :
    (menuStep e s).iconActive = (menuStep e s).navActive ∧
    (s.iconActive = "true" →
      (menuStep e s).iconActive = "false" ∧ (menuStep e s).navActive = "false") ∧
    (¬(s.iconActive = "true") →
      (menuStep e s).iconActive = "true" ∧ (menuStep e s).navActive = "true") := by
  cases e <;> by_cases h : s.iconActive = "true" <;>
    simp [menuStep, toggleAttribute, jsBoolString, beq_iff_eq, h]

/-- C8 witness: with the menu open an icon click clears both attributes,
and from the initial closed state a navigation-link click sets both. -/
theorem hamburger_toggle_witness :
    ((menuStep MenuEvent.iconClick { iconActive := "true", navActive := "true" }).iconActive
        = "false" ∧
      (menuStep MenuEvent.iconClick { iconActive := "true", navActive := "true" }).navActive
        = "false") ∧
    ((menuStep MenuEvent.navLinkClick menuInit).iconActive = "true" ∧
      (menuStep MenuEvent.navLinkClick menuInit).navActive = "true") := by
  refine ⟨(hamburger_click_toggles_both_together
      { iconActive := "true", navActive := "true" } MenuEvent.iconClick).2.1 rfl,
    (hamburger_click_toggles_both_together menuInit MenuEvent.navLinkClick).2.2 (by decide)⟩

/-! ## Theme toggle invariant -/

/-- Every handled icon click re-establishes the invariant outright. -/
theorem handleIconClick_invariant (e : ToggleEvent) (s : ToggleState) :
    toggleInvariant (handleIconClick e s) := by
  cases e
  · exact Or.inr ⟨rfl, rfl, rfl⟩
  · exact Or.inl ⟨rfl, rfl, rfl⟩

/-- The invariant is preserved by any sequence of handled clicks. -/
theorem runToggle_invariant (evs : List ToggleEvent) (s : ToggleState)
    (h : toggleInvariant s) : toggleInvariant (runToggle evs s) := by
  induction evs generalizing s with
  | nil => simpa [runToggle] using h
  | cons e rest ih =>
    show toggleInvariant (runToggle rest (handleIconClick e s))
    exact ih _ (handleIconClick_invariant e s)

/-- C5: after the initial render of toggle-theme on a document whose
data-theme is light or dark, and after every handled clicked-sun or
clicked-moon event, exactly one of the sun and moon icons has data-active
true, and it is the one opposite to the document theme (dark theme has
the sun icon active, light theme the moon icon). -/
theorem toggle_theme_exactly_one_active (doc : Option String) (evs : List ToggleEvent)
    (h : doc = some ("light") ∨ doc = some ("dark")) :
    toggleInvariant (runToggle evs (toggleRender doc)) := by
  apply runToggle_invariant
  rcases h with rfl | rfl
  · exact Or.inr ⟨rfl, rfl, rfl⟩
  · exact Or.inl ⟨rfl, rfl, rfl⟩

/-- C5 witness: starting from a light document and clicking the sun icon
once keeps exactly one icon active, opposite to the new theme. -/
theorem toggle_theme_exactly_one_active_witness :
    toggleInvariant (runToggle [ToggleEvent.clickedSun] (toggleRender (some ("light")))) :=
  toggle_theme_exactly_one_active (some ("light")) [ToggleEvent.clickedSun] (Or.inl rfl)

/-! ## Icon loader lemmas and claims -/

/-- Appended img effects never touch the network or the cache. -/
theorem appendImgs_filter_network (l : List IconImg) :
    (l.map IconEffect.appendImg).filter isNetworkOrCacheEffect = [] := by
  induction l with
  | nil => rfl
  | cons a rest ih =>
    simp [List.filter_cons, isNetworkOrCacheEffect, ih]

/-- insertIcon produces only presentation effects. -/
theorem insertIcon_filter_network (height width : Nat) (theme : String) (st : IconState) :
    (insertIcon height width theme st).filter isNetworkOrCacheEffect = [] := by
  simp [insertIcon, List.filter_cons, isNetworkOrCacheEffect, appendImgs_filter_network]

/-- One observer callback step produces no network or cache effect and
keeps both resolved icon variants. -/
theorem observerStep_no_fetch (t : Option String) (st : IconState) :
    ((observerStep t st).2.filter isNetworkOrCacheEffect) = [] ∧
    (observerStep t st).1.iconLight = st.iconLight ∧
    (observerStep t st).1.iconDark = st.iconDark := by
  cases t with
  | none => exact ⟨rfl, rfl, rfl⟩
  | some v =>
    by_cases h1 : v = "light"
    · simp [observerStep, h1, insertIcon_filter_network]
    · by_cases h2 : v = "dark"
      · simp [observerStep, h1, h2, insertIcon_filter_network]
      · simp [observerStep, h1, h2]

/-- C6: once icon-theme-aware has finished hydrating (both variants held
in iconLight and iconDark), every sequence of data-theme mutations
handled by the attribute observer triggers only presentation effects:
its effect trace contains no network fetch and no cache access, and the
held variants are unchanged, so fetchIcon is never invoked again. -/
theorem icon_ready_theme_change_no_fetch (st : IconState) (themes : List (Option String)) :
    ((observerRun themes st).2.filter isNetworkOrCacheEffect) = [] ∧
    (observerRun themes st).1.iconLight = st.iconLight ∧
    (observerRun themes st).1.iconDark = st.iconDark := by
  induction themes generalizing st with
  | nil => exact ⟨rfl, rfl, rfl⟩
  | cons t rest ih =>
    obtain ⟨h1, h2, h3⟩ := observerStep_no_fetch t st
    obtain ⟨ih1, ih2, ih3⟩ := ih (observerStep t st).1
    refine ⟨?_, ?_, ?_⟩
    · show (((observerStep t st).2 ++ (observerRun rest (observerStep t st).1).2).filter
        isNetworkOrCacheEffect) = []
      rw [List.filter_append, h1, ih1]
      rfl
    · show (observerRun rest (observerStep t st).1).1.iconLight = st.iconLight
      rw [ih2, h2]
    · show (observerRun rest (observerStep t st).1).1.iconDark = st.iconDark
      rw [ih3, h3]

/-- C7: when the network fails for an icon source (a rejected fetch or a
response with ok false), fetchIcon returns the explicit null result
rather than throwing, issues exactly one request (no retry) and writes
nothing to the cache; and insertIcon skips the corresponding variant:
with iconLight unresolved no light img is inserted, with iconDark
unresolved no dark img. -/
theorem fetch_icon_failure_returns_none_no_retry (src : String)
    (net : String → FetchOutcome)
    (hfail : net src = FetchOutcome.httpError ∨ net src = FetchOutcome.netError) :
    fetchIcon (some src) true net = (none, [IconEffect.fetchReq src]) ∧
    (∀ (h w : Nat) (theme : String) (st : IconState), st.iconLight = none →
      (insertIconImgs h w theme st).all (fun i => !(i.alt == "Light Icon")) = true) ∧
    (∀ (h w : Nat) (theme : String) (st : IconState), st.iconDark = none →
      (insertIconImgs h w theme st).all (fun i => !(i.alt == "Dark Icon")) = true) := by
  refine ⟨?_, ?_, ?_⟩
  · rcases hfail with h | h <;> simp [fetchIcon, h]
  · intro h w theme st hL
    by_cases ht : theme = "dark"
    · cases hD : st.iconDark <;> simp [insertIconImgs, hL, hD, ht]
    · by_cases ht2 : theme = "light" <;> simp [insertIconImgs, hL, ht, ht2]
  · intro h w theme st hD
    by_cases ht : theme = "light"
    · cases hL : st.iconLight <;> simp [insertIconImgs, hL, hD, ht]
    · by_cases ht2 : theme = "dark" <;> simp [insertIconImgs, hD, ht, ht2]

/-- C7 witness: a network that always rejects yields the null result and
a single request for a concrete source, and a state with no light
variant inserts no light img under the light theme. -/
theorem fetch_icon_failure_witness :
    fetchIcon (some ("icons/logo.svg")) true (fun _ => FetchOutcome.netError)
      = (none, [IconEffect.fetchReq ("icons/logo.svg")]) ∧
    (insertIconImgs 64 64 ("light")
      { currentTheme := "light", iconLight := none, iconDark := none,
        iconHeight := 64, iconWidth := 64 }).all (fun i => !(i.alt == "Light Icon"))
      = true := by
  have h := fetch_icon_failure_returns_none_no_retry ("icons/logo.svg")
    (fun _ => FetchOutcome.netError) (Or.inr rfl)
  exact ⟨h.1, h.2.1 64 64 ("light")
    { currentTheme := "light", iconLight := none, iconDark := none,
      iconHeight := 64, iconWidth := 64 } rfl⟩

/-- C10: insertIcon leaves the icon container empty for every theme other
than light and dark, and also when the matching variant blob is missing;
an img is appended exactly when the theme is light with iconLight present
(sized by the call parameters) or dark with iconDark present (sized by
the stored dimensions). -/
theorem insert_icon_contents_characterized (theme : String) (st : IconState) (h w : Nat) :
    (theme ≠ "light" → theme ≠ "dark" → insertIconImgs h w theme st = []) ∧
    (theme = "light" → st.iconLight = none → insertIconImgs h w theme st = []) ∧
    (theme = "dark" → st.iconDark = none → insertIconImgs h w theme st = []) ∧
    (∀ b, theme = "light" → st.iconLight = some b →
      insertIconImgs h w theme st
        = [{ width := w, height := h, alt := "Light Icon", src := b }]) ∧
    (∀ b, theme = "dark" → st.iconDark = some b →
      insertIconImgs h w theme st
        = [{ width := st.iconWidth, height := st.iconHeight, alt := "Dark Icon", src := b }]) := by
  refine ⟨?_, ?_, ?_, ?_, ?_⟩
  · intro h1 h2; simp [insertIconImgs, h1, h2]
  · intro h1 h2; subst h1; simp [insertIconImgs, h2]
  · intro h1 h2; subst h1; simp [insertIconImgs, h2]
  · intro b h1 h2; subst h1; simp [insertIconImgs, h2]
  · intro b h1 h2; subst h1; simp [insertIconImgs, h2]

/-- C10 witness: an unknown theme string renders nothing, and the light
theme with a held light blob renders exactly the light img sized by the
call parameters. -/
theorem insert_icon_contents_witness :
    insertIconImgs 64 64 ("system")
      { currentTheme := "system", iconLight := none, iconDark := none,
        iconHeight := 64, iconWidth := 64 } = [] ∧
    insertIconImgs 32 48 ("light")
      { currentTheme := "light", iconLight := some { bytes := "svg" }, iconDark := none,
        iconHeight := 32, iconWidth := 48 }
      = [{ width := 48, height := 32, alt := "Light Icon", src := { bytes := "svg" } }] := by
  refine ⟨(insert_icon_contents_characterized ("system")
      { currentTheme := "system", iconLight := none, iconDark := none,
        iconHeight := 64, iconWidth := 64 } 64 64).1 (by decide) (by decide),
    (insert_icon_contents_characterized ("light")
      { currentTheme := "light", iconLight := some { bytes := "svg" }, iconDark := none,
        iconHeight := 32, iconWidth := 48 } 32 48).2.2.2.1 { bytes := "svg" } rfl rfl⟩

/-! ## Todo submission lemmas and claims -/

/-- A strictly increasing list stays strictly increasing after dropping
its head. -/
theorem strictIncr_tail (a : Nat) (l : List Nat)
    (h : strictIncr (a :: l) = true) : strictIncr l = true := by
  cases l with
  | nil => rfl
  | cons b t =>
    simp only [strictIncr, Bool.and_eq_true, decide_eq_true_eq] at h
    exact h.2

/-- The head of a strictly increasing list is below every later element. -/
theorem strictIncr_head_lt (l : List Nat) (a : Nat)
    (h : strictIncr (a :: l) = true) : ∀ c ∈ l, a < c := by
  induction l generalizing a with
  | nil => intro c hc; simp at hc
  | cons b t ih =>
    intro c hc
    simp only [strictIncr, Bool.and_eq_true, decide_eq_true_eq] at h
    rcases List.mem_cons.mp hc with rfl | hc2
    · exact h.1
    · exact Nat.lt_trans h.1 (ih b h.2 c hc2)

/-- Appending one element larger than everything keeps a list strictly
increasing. -/
theorem strictIncr_append_one (l : List Nat) (n : Nat)
    (h : strictIncr l = true) (hall : ∀ i ∈ l, i < n) :
    strictIncr (l ++ [n]) = true := by
  induction l with
  | nil => rfl
  | cons a t ih =>
    cases t with
    | nil =>
      have ha : a < n := hall a (List.mem_cons_self a [])
      simp [strictIncr, ha]
    | cons b t2 =>
      simp only [strictIncr, Bool.and_eq_true, decide_eq_true_eq] at h
      have hrest := ih h.2 (fun i hi => hall i (List.mem_cons_of_mem a hi))
      simp only [List.cons_append] at hrest ⊢
      simp [strictIncr, h.1, hrest]

/-- Whenever the submit listener dispatches, the id of the payload is the
Date.now() reading of the interaction. -/
theorem todoInputSubmit_id (raw : Option String) (now : Nat) (p : SubmitPayload)
    (h : todoInputSubmit raw now = some p) : p.id = now := by
  cases raw with
  | none => simp [todoInputSubmit] at h
  | some r =>
    simp only [todoInputSubmit] at h
    split at h
    · simp at h
    · rw [← Option.some.inj h]

/-- Running submits whose clock readings are strictly increasing and all
above the ids already present keeps the rendered id sequence strictly
increasing. -/
theorem runTodoSubmits_strictIncr (subs : List (Option String × Nat)) (s : TodoState)
    (hclk : strictIncr (subs.map Prod.snd) = true)
    (hids : strictIncr (s.entries.map Entry.id) = true)
    (hlt : ∀ i ∈ s.entries.map Entry.id, ∀ c ∈ subs.map Prod.snd, i < c) :
    strictIncr ((runTodoSubmits subs s).entries.map Entry.id) = true := by
  induction subs generalizing s with
  | nil => simpa [runTodoSubmits] using hids
  | cons x rest ih =>
    obtain ⟨r, n⟩ := x
    simp only [List.map_cons] at hclk hlt
    have hclk_rest : strictIncr (rest.map Prod.snd) = true := strictIncr_tail n _ hclk
    have hn_lt : ∀ c ∈ rest.map Prod.snd, n < c := strictIncr_head_lt _ n hclk
    have hstep : runTodoSubmits ((r, n) :: rest) s = runTodoSubmits rest (todoSubmit r n s) := rfl
    rw [hstep]
    cases hd : todoInputSubmit r n with
    | none =>
      have hsub : todoSubmit r n s = s := by simp [todoSubmit, hd]
      rw [hsub]
      exact ih s hclk_rest hids
        (fun i hi c hc => hlt i hi c (List.mem_cons_of_mem n hc))
    | some p =>
      have hpid : p.id = n := todoInputSubmit_id r n p hd
      have hsub : todoSubmit r n s = s.handleSubmit p := by simp [todoSubmit, hd]
      rw [hsub]
      have hmap : (s.handleSubmit p).entries.map Entry.id
          = s.entries.map Entry.id ++ [n] := by
        simp [TodoState.handleSubmit, hpid]
      apply ih
      · exact hclk_rest
      · rw [hmap]
        exact strictIncr_append_one _ n hids
          (fun i hi => hlt i hi n (List.mem_cons_self n _))
      · intro i hi c hc
        rw [hmap] at hi
        rcases List.mem_append.mp hi with hi1 | hi2
        · exact hlt i hi1 c (List.mem_cons_of_mem n hc)
        · have : i = n := by simpa using hi2
          rw [this]
          exact hn_lt c hc

/-- C2 counterexample: two non-empty submits delivered with the same
Date.now() reading (the same millisecond) both append an entry, but the
second entry's identifier equals the first instead of exceeding it: the
assigned id sequence 5, 5 is not strictly increasing. -/
theorem todo_submit_same_clock_ids_not_increasing :
    ((runTodoSubmits [(some ("a"), 5), (some ("b"), 5)] todoInit).entries.map Entry.id)
      = [5, 5] ∧
    strictIncr ((runTodoSubmits [(some ("a"), 5), (some ("b"), 5)] todoInit).entries.map Entry.id)
      = false := by
  decide

/-- C2 amended: a submit whose text trims to empty (or whose field is
missing) changes nothing; a submit with non-empty trimmed text appends
exactly one entry, whose identifier is the Date.now() clock reading of
the submit, and raises the displayed count by exactly one; across a run
from the initial state the assigned identifiers are strictly increasing
whenever the clock readings of the submits are strictly increasing (in
particular they need not increase when submits share a millisecond). -/
theorem todo_submit_append_count_and_monotonic_ids :
    (∀ (s : TodoState) (now : Nat), todoSubmit none now s = s) ∧
    (∀ (s : TodoState) (r : String) (now : Nat), jsTrim r = "" →
      todoSubmit (some r) now s = s) ∧
    (∀ (s : TodoState) (r : String) (now : Nat), ¬(jsTrim r = "") →
      (todoSubmit (some r) now s).entries = s.entries ++ [{ id := now, text := jsTrim r }] ∧
      (todoSubmit (some r) now s).count = s.count + 1) ∧
    (∀ (subs : List (Option String × Nat)),
      strictIncr (subs.map Prod.snd) = true →
      strictIncr ((runTodoSubmits subs todoInit).entries.map Entry.id) = true) := by
  refine ⟨fun s now => rfl, ?_, ?_, ?_⟩
  · intro s r now h
    simp [todoSubmit, todoInputSubmit, h]
  · intro s r now h
    constructor <;> simp [todoSubmit, todoInputSubmit, h, TodoState.handleSubmit]
  · intro subs h
    refine runTodoSubmits_strictIncr subs todoInit h rfl ?_
    intro i hi
    simp [todoInit] at hi

/-- C2 witness: a submit of a padded non-empty text appends one entry
with the trimmed text and the clock id and bumps the count, and a run
with increasing clock readings yields increasing identifiers. -/
theorem todo_submit_append_witness :
    (todoSubmit (some (" hi ")) 3 todoInit).entries
      = todoInit.entries ++ [{ id := 3, text := jsTrim (" hi ") }] ∧
    (todoSubmit (some (" hi ")) 3 todoInit).count = todoInit.count + 1 ∧
    strictIncr ((runTodoSubmits [(some ("a"), 1), (some ("b"), 2)] todoInit).entries.map Entry.id)
      = true := by
  have h := todo_submit_append_count_and_monotonic_ids
  exact ⟨(h.2.2.1 todoInit (" hi ") 3 (by decide)).1,
    (h.2.2.1 todoInit (" hi ") 3 (by decide)).2,
    h.2.2.2 [(some ("a"), 1), (some ("b"), 2)] (by decide)⟩

/-- C9: whenever the todo-input submit listener dispatches an event, the
payload text is exactly the raw form value with leading and trailing
whitespace removed and is never empty; a missing field or a text that
trims to empty dispatches nothing. -/
theorem todo_input_submit_text_trimmed_nonempty :
    (∀ (now : Nat), todoInputSubmit none now = none) ∧
    (∀ (r : String) (now : Nat), jsTrim r = "" → todoInputSubmit (some r) now = none) ∧
    (∀ (r : String) (now : Nat) (p : SubmitPayload),
      todoInputSubmit (some r) now = some p →
      p.text = jsTrim r ∧ ¬(jsTrim r = "") ∧ p.id = now) := by
  refine ⟨fun now => rfl, ?_, ?_⟩
  · intro r now h
    simp [todoInputSubmit, h]
  · intro r now p h
    by_cases he : jsTrim r = ""
    · simp [todoInputSubmit, he] at h
    · simp only [todoInputSubmit, if_neg he] at h
      rw [← Option.some.inj h]
      exact ⟨rfl, he, rfl⟩

/-- C9 witness: a whitespace-only value dispatches nothing, and a padded
value dispatches its trimmed non-empty text with the clock id. -/
theorem todo_input_submit_witness :
    todoInputSubmit none 0 = none ∧
    todoInputSubmit (some ("   ")) 1 = none ∧
    (SubmitPayload.text { text := jsTrim (" a "), id := 2 } = jsTrim (" a ") ∧
      ¬(jsTrim (" a ") = "") ∧
      SubmitPayload.id { text := jsTrim (" a "), id := 2 } = 2) := by
  have h := todo_input_submit_text_trimmed_nonempty
  exact ⟨h.1 0, h.2.1 ("   ") 1 (by decide),
    h.2.2 (" a ") 2 { text := jsTrim (" a "), id := 2 } (by decide)⟩

end WC
